import Mathlib

/-!
# Verification of the DoubanTimeline resolution-and-normalization pipeline

A shallow embedding, in Lean 4, of the core of the DoubanTimeline Go
program: the URL resolver (`ParseDoubanURL`), the metadata projection
(`FetchDoubanMediaInfo`), the retrying fetch primitives (`requestAPI`,
`downloadImage`, `downloadJavImage`), the rating backfill (`fetchRating`,
`extractRatingFromHTML`), the add-item orchestration (`addMovieHandler`,
create path) and the subprocess JSON consumer (`fetchJavInfoFromPython`,
`getString`).

Go strings are modelled as `List Char`.  Go `strings.Contains`,
`strings.Replace`, `strings.Index` and friends operate on bytes, but for
valid UTF-8 inputs a byte-level occurrence of one valid UTF-8 string
inside another always falls on character boundaries (UTF-8 is
self-synchronizing), so the character-level model coincides with the
byte-level one on all valid Unicode inputs.  Go byte slices are modelled
as `List Nat`.  `float64` values that only ever come out of JSON numbers
or `strconv.ParseFloat` are modelled as `ℚ`.  External collaborators
(the HTTP stack, the Go standard library regexp engine and JSON decoder,
the filesystem) are modelled as explicit outcome streams / oracle
functions, exactly as the call sites consume them.
-/

set_option linter.unusedVariables false

namespace DoubanTimeline

/-- Character list of a string literal (Go strings are modelled as `List Char`). -/
def str (s : String) : List Char := s.data

/-- Does `pre` occur at the very beginning of `s`?  Models Go
`strings.HasPrefix` and is the single building block for the other
`strings` package models below. -/
def litHead : List Char → List Char → Bool
  | [], _ => true
  | _ :: _, [] => false
  | p :: ps, c :: cs => c = p && litHead ps cs

/-- Go `strings.Contains s sub`. -/
def containsStr : List Char → List Char → Bool
  | s, sub =>
    match s with
    | [] => litHead sub []
    | c :: t => litHead sub (c :: t) || containsStr t sub

/-- Go `strings.Index s sub`: index of the first occurrence of `sub` in
`s`, `none` standing for Go's `-1`. -/
def strIndex : List Char → List Char → Option Nat
  | s, sub =>
    match s with
    | [] => if litHead sub [] then some 0 else none
    | c :: t => if litHead sub (c :: t) then some 0 else (strIndex t sub).map (· + 1)

/-- Helper for `replaceFirst`: replace the first occurrence of the
non-empty pattern `old` by `new`. -/
def replaceFirstAux (old new : List Char) : List Char → List Char
  | [] => []
  | c :: t =>
    if litHead old (c :: t) then new ++ (c :: t).drop old.length
    else c :: replaceFirstAux old new t

/-- Go `strings.Replace s old new 1`: replace the first occurrence of
`old` in `s` by `new`.  When `old` is empty, Go inserts `new` once at
the beginning of the string. -/
def replaceFirst (s old new : List Char) : List Char :=
  if old = [] then new ++ s else replaceFirstAux old new s

/-- Go `unicode.IsSpace`: the Unicode White_Space property (the exact
set of code points tested by the Go standard library). -/
def goIsSpace (c : Char) : Bool :=
  (9 ≤ c.toNat && c.toNat ≤ 13) || c.toNat = 32 || c.toNat = 0x85 || c.toNat = 0xA0 ||
  c.toNat = 0x1680 || (0x2000 ≤ c.toNat && c.toNat ≤ 0x200A) ||
  c.toNat = 0x2028 || c.toNat = 0x2029 || c.toNat = 0x202F ||
  c.toNat = 0x205F || c.toNat = 0x3000

/-- Go `strings.TrimSpace`: drop leading and trailing white space. -/
def trimSpace (s : List Char) : List Char :=
  ((s.dropWhile goIsSpace).reverse.dropWhile goIsSpace).reverse

/-- ASCII digit, the character class matched by `\d` in a Go regexp. -/
def isDigitChar (c : Char) : Bool :=
  48 ≤ c.toNat && c.toNat ≤ 57

/-- Go `strings.Join strs "/"` (source helper `joinStringsWithSlash`). -/
def joinSlash : List (List Char) → List Char
  | [] => []
  | [s] => s
  | s :: rest => s ++ '/' :: joinSlash rest

/-- Fuel-driven worker for `splitOn`; the fuel bounds the number of
separator occurrences, `s.length` always suffices for a non-empty
separator. -/
def splitGo (sep : List Char) : Nat → List Char → List (List Char)
  | 0, s => [s]
  | n + 1, s =>
    match strIndex s sep with
    | none => [s]
    | some i => s.take i :: splitGo sep n (s.drop (i + sep.length))

/-- Go `strings.Split s sep` for a non-empty separator. -/
def splitOn (s sep : List Char) : List (List Char) :=
  splitGo sep s.length s

/-- Source helper `getFirstPubdate`: head of the publication-date list,
or the empty string. -/
def getFirstPubdate : List (List Char) → List Char
  | [] => []
  | d :: _ => d

/-! ## URL Resolver (`douban_module/douban.go`, `ParseDoubanURL`) -/

/-- Error taxonomy of `ParseDoubanURL` (`douban.go`, lines 91-137):
`invalidFormat` for a URL the pattern rejects, `extractFailed` for the
defensive submatch-length check, `unknownSubjectType` for an
unrecognized category, `invalidHost` when the host is not in the
category's allow-list. -/
inductive ParseErr where
  | invalidFormat
  | extractFailed
  | unknownSubjectType
  | invalidHost
deriving Repr, DecidableEq

/-- If `pre` is a literal prefix of `s`, return the rest of `s`. -/
def dropLit : List Char → List Char → Option (List Char)
  | [], s => some s
  | _ :: _, [] => none
  | p :: ps, c :: cs => if c = p then dropLit ps cs else none

/-- Try a list of literal alternatives in order, returning the matched
literal and the rest of the input.  Models an anchored regexp
alternation of literals. -/
def tryLits : List (List Char) → List Char → Option (List Char × List Char)
  | [], _ => none
  | l :: ls, s =>
    match dropLit l s with
    | some r => some (l, r)
    | none => tryLits ls s

/-- The host alternatives of the URL pattern
`^https://(?:(?:www|book|movie)\.douban\.com)/...`, with the common
suffix inlined.  The three literals start with distinct characters, so
the alternation is unambiguous. -/
def doubanHosts : List (List Char) :=
  [str "www.douban.com", str "book.douban.com", str "movie.douban.com"]

/-- The path-segment alternatives `(?:game|subject)` of the URL pattern. -/
def doubanSegs : List (List Char) :=
  [str "game", str "subject"]

/-- The anchored match of the source pattern
`^https://(?:(?:www|book|movie)\.douban\.com)/(?:game|subject)/(\d+)/?$`
(`douban.go`, line 93), returning the host component together with the
captured digit run.  Because the pattern is anchored at both ends, a
match exists exactly when the string decomposes as
scheme-host-segment-digits-optional-slash, and the greedy `\d+` capture
is the maximal digit run. -/
def matchDoubanURL (s : List Char) : Option (List Char × List Char) :=
  match dropLit (str "https://") s with
  | none => none
  | some s1 =>
    match tryLits doubanHosts s1 with
    | none => none
    | some (host, s2) =>
      match dropLit ['/'] s2 with
      | none => none
      | some s3 =>
        match tryLits doubanSegs s3 with
        | none => none
        | some (_, s4) =>
          match dropLit ['/'] s4 with
          | none => none
          | some s5 =>
            let ds := s5.takeWhile isDigitChar
            let rest := s5.dropWhile isDigitChar
            if ds ≠ [] ∧ (rest = [] ∨ rest = ['/']) then some (host, ds) else none

/-- The per-category host allow-list (`douban.go`, lines 113-123);
`none` models the `default` branch (unknown subject type). -/
def validHosts (subjectType : List Char) : Option (List (List Char)) :=
  if subjectType = str "book" then some [str "book.douban.com"]
  else if subjectType = str "movie" ∨ subjectType = str "tv" ∨ subjectType = str "anime" then
    some [str "movie.douban.com"]
  else if subjectType = str "game" then some [str "www.douban.com"]
  else none

/-- Source `ParseDoubanURL` (`douban.go`, lines 91-137).  After the pattern
match, the source re-runs `FindStringSubmatch` (whose capture is the
digit run already produced by `matchDoubanURL`; the defensive
`len(matches) <= 1` branch is unreachable) and extracts the hostname
with `url.Parse` + `Hostname()`; on any string accepted by the anchored
pattern the hostname is exactly the matched host literal, which
`matchDoubanURL` returns. -/
def ParseDoubanURL (externalURL subjectType : List Char) : Except ParseErr (List Char) :=
  match matchDoubanURL externalURL with
  | none => .error .invalidFormat
  | some (host, subjectID) =>
    match validHosts subjectType with
    | none => .error .unknownSubjectType
    | some hosts =>
      if host ∈ hosts then .ok subjectID else .error .invalidHost

/-! ## Raw subject shapes and the canonical record (`douban.go`) -/

/-- Source `DoubanRating` (`douban.go`, lines 72-76). -/
structure DoubanRating where
  count : Int
  value : ℚ
  max : Int
deriving Repr, DecidableEq

/-- Source `DoubanBookSubject` (`douban.go`, lines 32-43).  The `cover` field
stands for `Cover.Normal` (of `DoubanCover`), the only field of the
nested cover object the projection reads. -/
structure DoubanBookSubject where
  title : List Char
  altTitle : List Char
  pubDate : List (List Char)
  author : List (List Char)
  press : List (List Char)
  cardSubtitle : List Char
  intro : List Char
  typ : List Char
  cover : List Char
  rating : Option DoubanRating
deriving Repr, DecidableEq

/-- Source `DoubanMovieSubject` (`douban.go`, lines 46-56).  `directors` holds
the `Name` field of each `DoubanDirector`, the only field `getCreator`
reads. -/
structure DoubanMovieSubject where
  title : List Char
  altTitle : List Char
  pubDate : List (List Char)
  directors : List (List Char)
  cardSubtitle : List Char
  intro : List Char
  typ : List Char
  cover : List Char
  rating : Option DoubanRating
deriving Repr, DecidableEq

/-- Source `DoubanGameSubject` (`douban.go`, lines 59-69). -/
structure DoubanGameSubject where
  title : List Char
  titleCN : List Char
  releaseDate : List Char
  developer : List (List Char)
  publisher : List (List Char)
  intro : List Char
  typ : List Char
  cover : List Char
  rating : Option DoubanRating
deriving Repr, DecidableEq

/-- The dynamically-typed union inspected by the type switch of
`FetchDoubanMediaInfo` (`douban.go`, lines 195-242). -/
inductive DoubanSubject where
  | book (b : DoubanBookSubject)
  | movie (m : DoubanMovieSubject)
  | game (g : DoubanGameSubject)
deriving Repr, DecidableEq

/-- Source `MediaSubject` (`douban.go`, lines 79-88), the canonical record. -/
structure MediaSubject where
  title : List Char
  altTitle : List Char
  creator : List Char
  press : List Char
  pubDate : List Char
  summary : List Char
  imageURL : List Char
  rating : ℚ
deriving Repr, DecidableEq

/-- Rating extraction shared by the three branches (`douban.go`, e.g.
lines 205-207): the typed zero value `0` when the optional nested
rating object is absent, its `Value` field otherwise. -/
def ratingValue : Option DoubanRating → ℚ
  | none => 0
  | some r => r.value

/-- The projection switch of `FetchDoubanMediaInfo` (`douban.go`, lines
183-253): one deserialized raw shape in, a canonical `MediaSubject`
out.  The network fetch and `json.Unmarshal` preceding it are the
external HTTP/JSON collaborators; the projection is the repository's
own algorithmic content. -/
def projectSubject : DoubanSubject → MediaSubject
  | .book b =>
    { title := b.title
      altTitle := b.altTitle
      creator := joinSlash b.author
      press := joinSlash b.press
      pubDate := getFirstPubdate b.pubDate
      summary := b.intro
      imageURL := b.cover
      rating := ratingValue b.rating }
  | .movie m =>
    { title := m.title
      altTitle := m.altTitle
      creator := joinSlash m.directors
      press :=
        match splitOn m.cardSubtitle (str " / ") with
        | _ :: p :: _ => p
        | _ => []
      pubDate := getFirstPubdate m.pubDate
      summary := m.intro
      imageURL := m.cover
      rating := ratingValue m.rating }
  | .game g =>
    if containsStr g.title g.titleCN then
      { title := g.titleCN
        altTitle := trimSpace (replaceFirst g.title g.titleCN [])
        creator := joinSlash g.developer
        press := joinSlash g.publisher
        pubDate := g.releaseDate
        summary := g.intro
        imageURL := g.cover
        rating := ratingValue g.rating }
    else
      { title := g.title
        altTitle := g.titleCN
        creator := joinSlash g.developer
        press := joinSlash g.publisher
        pubDate := g.releaseDate
        summary := g.intro
        imageURL := g.cover
        rating := ratingValue g.rating }

/-! ## Resilient fetch primitives (`douban.go` `requestAPI`, `main.go`
`downloadImage` / `downloadJavImage`)

Each network attempt is an interaction with the HTTP collaborator; the
collaborator is modelled as a stream `Nat → _` of per-attempt outcomes
(attempt `i` observes outcome `i`), and the filesystem as a partial map
from paths to byte contents. -/

/-- Byte strings (Go `[]byte`). -/
abbrev Bytes := List Nat

/-- An opaque Go `error` value, identified by its message text. -/
abbrev GoErr := List Char

instance {ε α : Type} [DecidableEq ε] [DecidableEq α] : DecidableEq (Except ε α) := fun a b =>
  match a, b with
  | .error x, .error y =>
    if h : x = y then isTrue (congrArg Except.error h)
    else isFalse (fun hh => h (Except.error.inj hh))
  | .ok x, .ok y =>
    if h : x = y then isTrue (congrArg Except.ok h)
    else isFalse (fun hh => h (Except.ok.inj hh))
  | .error _, .ok _ => isFalse (fun hh => Except.noConfusion hh)
  | .ok _, .error _ => isFalse (fun hh => Except.noConfusion hh)

/-- Outcome of one attempt of `requestAPI` (`douban.go`, lines 264-296):
`http.NewRequest` failure, `client.Do` failure, or a response carrying
a status code and the result of `io.ReadAll` on its body. -/
inductive APIAttempt where
  | reqErr (e : GoErr)
  | transport (e : GoErr)
  | response (code : Nat) (readResult : Except GoErr Bytes)
deriving Repr, DecidableEq

/-- The retried failure classes of `requestAPI`, recorded in its `err`
variable: `client.Do` failure, non-200 status, body-read failure. -/
inductive APIFail where
  | transport (e : GoErr)
  | badStatus (code : Nat)
  | readErr (e : GoErr)
deriving Repr, DecidableEq

/-- Errors surfaced by `requestAPI`: an immediate `http.NewRequest`
error (`douban.go`, line 267), or the post-loop exhaustion error
(line 297) carrying the last recorded failure. -/
inductive APIErr where
  | reqErr (e : GoErr)
  | exhausted (last : Option APIFail)
deriving Repr, DecidableEq

/-- The retry loop of `requestAPI` (`douban.go`, lines 264-296): `fuel`
is the number of remaining iterations of `for i := 0; i < maxRetries`,
`i` the attempt index, and the third argument the `err` variable
holding the last failure.  A request-construction error returns
immediately; the three failure classes record the error and continue;
a 200 response with a successful body read returns the body. -/
def requestAPIAux (atts : Nat → APIAttempt) :
    Nat → Nat → Option APIFail → Except APIErr Bytes
  | 0, _, last => .error (.exhausted last)
  | fuel + 1, i, _ =>
    match atts i with
    | .reqErr e => .error (.reqErr e)
    | .transport e => requestAPIAux atts fuel (i + 1) (some (.transport e))
    | .response code rr =>
      if code ≠ 200 then requestAPIAux atts fuel (i + 1) (some (.badStatus code))
      else
        match rr with
        | .error e => requestAPIAux atts fuel (i + 1) (some (.readErr e))
        | .ok b => .ok b

/-- Source `maxRetries` of `requestAPI` (`douban.go`, line 258). -/
def requestAPIRetries : Nat := 2

/-- Source `requestAPI` (`douban.go`, lines 257-298), over a stream of
per-attempt outcomes.  The `last` accumulator shadows the outer `last`
binder of `requestAPIAux` in the base case, exactly as the Go `err`
variable flows into the exhaustion message. -/
def requestAPI (atts : Nat → APIAttempt) : Except APIErr Bytes :=
  requestAPIAux atts requestAPIRetries 0 none

/-- A filesystem: a partial map from paths to byte contents. -/
abbrev FS := List Char → Option Bytes

/-- Writing a file (`os.Create` followed by a completed `io.Copy`). -/
def fsInsert (fs : FS) (p : List Char) (v : Bytes) : FS :=
  fun q => if q = p then some v else fs q

/-- Removing a file (`os.Remove`). -/
def fsErase (fs : FS) (p : List Char) : FS :=
  fun q => if q = p then none else fs q

/-- Source `filepath.Join dir name` for a clean directory and a slash-free
file name: the separator-joined concatenation. -/
def joinPath (dir name : List Char) : List Char := dir ++ '/' :: name

/-- Outcome of one attempt of `downloadImage` / `downloadJavImage`:
request construction failure, transport failure, or a response with a
status code, a `Content-Type` header value, the result of `os.Create`
(`none` = success), and the result of `io.Copy` (`.ok body` = the full
body written; `.error (e, part)` = failure after writing `part`).  The
create/copy fields are only reached on a 200 status. -/
inductive DLAttempt where
  | reqErr (e : GoErr)
  | transport (e : GoErr)
  | response (code : Nat) (contentType : List Char) (createResult : Option GoErr)
      (copyResult : Except (GoErr × Bytes) Bytes)
deriving Repr, DecidableEq

/-- Errors surfaced by `downloadImage` / `downloadJavImage`
(`main.go`, lines 656-749 and 1070-1161): the `emptyURL` guard, the
last-attempt returns inside the loop, the local-file failures, and the
post-loop return (unreachable for a positive retry budget). -/
inductive DLErr where
  | emptyURL
  | reqErrFinal (e : GoErr)
  | transportExhausted (e : GoErr)
  | statusExhausted (code : Nat)
  | createFailed (e : GoErr)
  | saveFailed (e : GoErr)
  | exhaustedEnd
deriving Repr, DecidableEq

/-- Extension choice of `downloadImage` (`main.go`, lines 711-720):
default `.jpg`, then `png` / `gif` / `webp` substring tests on the
`Content-Type` header, in that order. -/
def extFromContentType (ct : List Char) : List Char :=
  if containsStr ct (str "png") then str ".png"
  else if containsStr ct (str "gif") then str ".gif"
  else if containsStr ct (str "webp") then str ".webp"
  else str ".jpg"

/-- Extension choice of `downloadJavImage` (`main.go`, lines 1125-1132):
default `.jpg`, then `png` / `webp` substring tests — there is no `gif`
case in this function. -/
def javExtFromContentType (ct : List Char) : List Char :=
  if containsStr ct (str "png") then str ".png"
  else if containsStr ct (str "webp") then str ".webp"
  else str ".jpg"

/-- The shared retry loop of `downloadImage` and `downloadJavImage`
(`main.go`, lines 667-746 and 1081-1158; the two Go functions are
line-for-line identical up to the referer header, the log text and the
extension mapping `extFn`).  `rem` is the number of remaining
iterations of `for attempt := 1; attempt <= maxRetries` (so `rem = 1`
is the `attempt == maxRetries` case, whose failures return instead of
sleeping), `i` the attempt index.  On a 200 response: choose the
extension, build the local path, `os.Create` (failure returns
immediately), `io.Copy` (failure removes the partial file and returns
immediately; success returns the path).  The zero-fuel case is the
post-loop return at line 748 / 1160. -/
def downloadLoop (extFn : List Char → List Char) (atts : Nat → DLAttempt)
    (stem imageDir : List Char) :
    Nat → Nat → FS → Except DLErr (List Char) × FS
  | 0, _, fs => (.error .exhaustedEnd, fs)
  | rem + 1, i, fs =>
    match atts i with
    | .reqErr e =>
      if rem = 0 then (.error (.reqErrFinal e), fs)
      else downloadLoop extFn atts stem imageDir rem (i + 1) fs
    | .transport e =>
      if rem = 0 then (.error (.transportExhausted e), fs)
      else downloadLoop extFn atts stem imageDir rem (i + 1) fs
    | .response code ct cr cpr =>
      if code ≠ 200 then
        if rem = 0 then (.error (.statusExhausted code), fs)
        else downloadLoop extFn atts stem imageDir rem (i + 1) fs
      else
        let localPath := joinPath imageDir (stem ++ extFn ct)
        match cr with
        | some e => (.error (.createFailed e), fs)
        | none =>
          match cpr with
          | .error (e, part) => (.error (.saveFailed e), fsErase (fsInsert fs localPath part) localPath)
          | .ok body => (.ok localPath, fsInsert fs localPath body)

/-- Source `maxRetries` of `downloadImage` / `downloadJavImage` (`main.go`,
lines 663 and 1077). -/
def downloadRetries : Nat := 3

/-- Source `downloadImage` (`main.go`, lines 656-749): empty-URL guard, then
the retry loop with the four-way extension mapping. -/
def downloadImage (imageURL : List Char) (atts : Nat → DLAttempt)
    (subjectID imageDir : List Char) (fs : FS) : Except DLErr (List Char) × FS :=
  if imageURL = [] then (.error .emptyURL, fs)
  else downloadLoop extFromContentType atts subjectID imageDir downloadRetries 0 fs

/-- Source `downloadJavImage` (`main.go`, lines 1070-1161): empty-URL guard,
then the retry loop with the three-way extension mapping (no `gif`). -/
def downloadJavImage (imageURL : List Char) (atts : Nat → DLAttempt)
    (filename imageDir : List Char) (fs : FS) : Except DLErr (List Char) × FS :=
  if imageURL = [] then (.error .emptyURL, fs)
  else downloadLoop javExtFromContentType atts filename imageDir downloadRetries 0 fs

/-! ## Rating backfill (`main.go` `fetchRating`, `extractRatingFromHTML`) -/

/-- Outcome of the single page fetch of `fetchRating`:
`http.NewRequest` failure, `client.Do` failure, or a response with a
status code and a body.  The manual read loop of `fetchRating`
(`main.go`, lines 590-605) keeps the bytes read before a read error and
proceeds, so the body field is whatever the loop accumulated. -/
inductive PageOutcome where
  | reqErr (e : GoErr)
  | transport (e : GoErr)
  | response (code : Nat) (body : List Char)
deriving Repr, DecidableEq

/-- The fixed ordered pattern list of `extractRatingFromHTML`
(`main.go`, lines 636-640), most specific first. -/
def ratingPatterns : List (List Char) :=
  [str "<strong[^>]*class=\"[^\"]*rating[^\"]*\"[^>]*>(\\d+\\.?\\d*)</strong>",
   str "property=\"v:average\"[^>]*>(\\d+\\.?\\d*)</strong>",
   str "rating_num[^>]*>(\\d+\\.?\\d*)</strong>"]

/-- The pattern loop of `extractRatingFromHTML` (`main.go`, lines
642-652).  `find` is the Go standard-library regexp engine
(`FindStringSubmatch` restricted to the first capture group: `none`
when the pattern does not match) and `pf` is `strconv.ParseFloat`
(`none` on a parse error); both are external collaborators, so they are
oracle parameters.  A pattern that matches but whose capture fails to
parse falls through to the next pattern, exactly as in the source. -/
def extractLoop (find : List Char → List Char → Option (List Char))
    (pf : List Char → Option ℚ) (html : List Char) : List (List Char) → ℚ
  | [] => 0
  | p :: ps =>
    match find p html with
    | none => extractLoop find pf html ps
    | some cap =>
      match pf cap with
      | some v => v
      | none => extractLoop find pf html ps

/-- Source `extractRatingFromHTML` (`main.go`, lines 634-653). -/
def extractRatingFromHTML (find : List Char → List Char → Option (List Char))
    (pf : List Char → Option ℚ) (html : List Char) : ℚ :=
  extractLoop find pf html ratingPatterns

/-- Source `fetchRating` (`main.go`, lines 538-620): request-construction
failure, transport failure and a non-200 status all return the sentinel
`0`; a 200 response scans the (possibly partially read) body with
`extractRatingFromHTML`.  The return type is `ℚ`, not an `Except`: the
function cannot surface an error. -/
def fetchRating (find : List Char → List Char → Option (List Char))
    (pf : List Char → Option ℚ) (out : PageOutcome) : ℚ :=
  match out with
  | .reqErr _ => 0
  | .transport _ => 0
  | .response code body =>
    if code ≠ 200 then 0 else extractRatingFromHTML find pf body

/-! ## Add-item orchestration (`main.go` `addMovieHandler`, create path) -/

/-- The pipeline stages observable in one `addMovieHandler` resolution
that creates a new record: the Metadata Mapper call
(`FetchDoubanMediaInfo`, line 268), the Rating Backfill call
(`fetchRating`, line 312), the Asset Materializer call
(`downloadImage`, line 320) and the persistence hand-off
(`db.Create`, line 346). -/
inductive OrchEvent where
  | mapper
  | backfill
  | download
  | create
deriving Repr, DecidableEq

/-- The persisted `Movie` record (`main.go`, lines 27-42), restricted to
the fields the create path computes from the canonical record
(timestamps and the favorite flag are persistence-collaborator state). -/
structure Movie where
  doubanID : List Char
  doubanURL : List Char
  title : List Char
  altTitle : List Char
  director : List Char
  pubDate : List Char
  imageURL : List Char
  rating : ℚ
  year : List Char
  summary : List Char
deriving Repr, DecidableEq

/-- Source `extractYear` (`main.go`, lines 525-534): the first element of
`strings.Fields dateStr` (first maximal run of non-space characters),
or the empty string. -/
def extractYear (dateStr : List Char) : List Char :=
  if dateStr = [] then []
  else
    match dateStr.dropWhile goIsSpace with
    | [] => []
    | c :: t => (c :: t).takeWhile (fun ch => !goIsSpace ch)

/-- Source `filepath.Base`: empty path is `"."`, otherwise strip trailing
slashes and keep everything after the last remaining slash (all-slash
paths give `"/"`). -/
def baseName (p : List Char) : List Char :=
  if p = [] then str "."
  else
    let q := p.reverse.dropWhile (fun c => c = '/')
    if q = [] then str "/"
    else (q.takeWhile (fun c => c ≠ '/')).reverse

/-- The create path of `addMovieHandler` (`main.go`, lines 306-353),
entered after `ParseDoubanURL` and `FetchDoubanMediaInfo` succeeded and
the record was not found: extract the year; if the mapped rating is the
sentinel `0`, call `fetchRating` (its result is the `backfillResult`
parameter); if the canonical image URL is non-empty, call
`downloadImage` (its result is the `dlResult` parameter), falling back
to the remote URL on failure and to the `/images/` path of the local
file on success; hand the assembled record to `db.Create`.  The event
list records, in order, which collaborator calls the flow performed
(`.mapper` stands for the completed `FetchDoubanMediaInfo` call that
produced `mediaInfo`). -/
def addMovieCreatePath (mediaInfo : MediaSubject) (subjectID doubanURL : List Char)
    (backfillResult : ℚ) (dlResult : Except DLErr (List Char)) :
    Movie × List OrchEvent :=
  let year := extractYear mediaInfo.pubDate
  let revt :=
    if mediaInfo.rating = 0 then (backfillResult, [OrchEvent.mapper, OrchEvent.backfill])
    else (mediaInfo.rating, [OrchEvent.mapper])
  let ievt :=
    if mediaInfo.imageURL ≠ [] then
      match dlResult with
      | .error _ => (mediaInfo.imageURL, revt.2 ++ [OrchEvent.download])
      | .ok localPath => (str "/images/" ++ baseName localPath, revt.2 ++ [OrchEvent.download])
    else ([], revt.2)
  ({ doubanID := subjectID
     doubanURL := doubanURL
     title := mediaInfo.title
     altTitle := mediaInfo.altTitle
     director := mediaInfo.creator
     pubDate := mediaInfo.pubDate
     imageURL := ievt.1
     rating := revt.1
     year := year
     summary := mediaInfo.summary }, ievt.2 ++ [OrchEvent.create])

/-! ## Subprocess JSON consumer (`main.go` `fetchJavInfoFromPython`,
`getString`) -/

/-- A parsed JSON value, the model of Go's `interface{}` decoding
target (`map[string]interface{}` at top level). -/
inductive JsonVal where
  | null
  | boolv (b : Bool)
  | num (q : ℚ)
  | strv (s : List Char)
  | arr (l : List JsonVal)
  | obj (m : List (List Char × JsonVal))

/-- Key lookup in a decoded JSON object (Go map indexing; `Unmarshal`
produces unique keys, so first-match lookup agrees with the map). -/
def lookupAssoc (m : List (List Char × JsonVal)) (k : List Char) : Option JsonVal :=
  match m with
  | [] => none
  | (k2, v) :: rest => if k = k2 then some v else lookupAssoc rest k

/-- Source `getString` (`main.go`, lines 1060-1067): the string value of the
key, the empty string when the key is absent or its value is not a
string. -/
def getString (m : List (List Char × JsonVal)) (key : List Char) : List Char :=
  match lookupAssoc m key with
  | some (.strv s) => s
  | _ => []

/-- Source `JavMovie` (`main.go`, lines 45-65), restricted to the fields
`fetchJavInfoFromPython` populates. -/
structure JavMovie where
  number : List Char
  title : List Char
  poster : List Char
  thumb : List Char
  actor : List Char
  release : List Char
  year : List Char
  tag : List Char
  mosaic : List Char
  runtime : List Char
  studio : List Char
  publisher : List Char
  director : List Char
  series : List Char
  website : List Char

/-- The record assembly of `fetchJavInfoFromPython` (`main.go`, lines
1038-1054): every field through `getString`. -/
def buildJavMovie (m : List (List Char × JsonVal)) : JavMovie :=
  { number := getString m (str "number")
    title := getString m (str "title")
    poster := getString m (str "poster")
    thumb := getString m (str "thumb")
    actor := getString m (str "actor")
    release := getString m (str "release")
    year := getString m (str "year")
    tag := getString m (str "tag")
    mosaic := getString m (str "mosaic")
    runtime := getString m (str "runtime")
    studio := getString m (str "studio")
    publisher := getString m (str "publisher")
    director := getString m (str "director")
    series := getString m (str "series")
    website := getString m (str "website") }

/-- Errors of the marker-extraction stage of `fetchJavInfoFromPython`:
`noJson` (either marker absent, carrying the full combined output,
line 1025), `slicePanic` (the Go slice `outputStr[startIdx+14:endIdx]`
with inverted bounds — a runtime panic, modelled as a distinct
outcome), `parseFailed` (`json.Unmarshal` rejects the payload,
line 1034). -/
inductive JavErr where
  | noJson (output : List Char)
  | slicePanic
  | parseFailed (jsonStr : List Char)

/-- The literal start sentinel (`main.go`, line 1018). -/
def startMarker : List Char := str "__JSON_START__"

/-- The literal end sentinel (`main.go`, line 1019). -/
def endMarker : List Char := str "__JSON_END__"

/-- The payload stage of `fetchJavInfoFromPython` (`main.go`, lines
1031-1056): `json.Unmarshal` of the trimmed payload into
`map[string]interface{}`, then the `getString`-based record assembly.
`parse` is the Go standard-library JSON decoder: an oracle returning
the parsed value, `none` on a syntax error; a decoded top-level `null`
leaves the Go map `nil` without error, so it yields the all-empty
record. -/
def javProcessPayload (parse : List Char → Option JsonVal)
    (jsonStr : List Char) : Except JavErr JavMovie :=
  match parse jsonStr with
  | some (.obj m) => .ok (buildJavMovie m)
  | some .null => .ok (buildJavMovie [])
  | _ => .error (.parseFailed jsonStr)

/-- The output-consumption stage of `fetchJavInfoFromPython`
(`main.go`, lines 1016-1056), over the combined subprocess output (the
subprocess execution itself and its error path, lines 1009-1014, are
the external collaborator): locate the first occurrences of the two
sentinel markers (either absent: error carrying the full output), take
the slice between them (inverted slice bounds: a Go runtime panic,
modelled as `slicePanic`), trim it, and hand it to the payload
stage. -/
def fetchJavInfoFromPython (output : List Char)
    (parse : List Char → Option JsonVal) : Except JavErr JavMovie :=
  match strIndex output startMarker, strIndex output endMarker with
  | some si, some ei =>
    if si + startMarker.length ≤ ei then
      javProcessPayload parse
        (trimSpace ((output.drop (si + startMarker.length)).take (ei - (si + startMarker.length))))
    else .error .slicePanic
  | _, _ => .error (.noJson output)

/-! ## Helper lemmas -/

theorem containsStr_nil (s : List Char) : containsStr s [] = true := by
  cases s <;> simp [containsStr, litHead]

theorem dropLit_sound : ∀ (p s r : List Char), dropLit p s = some r → s = p ++ r := by
  intro p
  induction p with
  | nil => intro s r h; simp [dropLit] at h; simpa using h
  | cons a ps ih =>
    intro s r h
    cases s with
    | nil => simp [dropLit] at h
    | cons c cs =>
      by_cases hc : c = a
      · subst hc
        simp only [dropLit, if_pos rfl] at h
        simpa using ih cs r h
      · simp [dropLit, hc] at h

theorem tryLits_sound : ∀ (ls : List (List Char)) (s l r : List Char),
    tryLits ls s = some (l, r) → l ∈ ls ∧ dropLit l s = some r := by
  intro ls
  induction ls with
  | nil => intro s l r h; simp [tryLits] at h
  | cons a as ih =>
    intro s l r h
    cases h0 : dropLit a s with
    | some r0 =>
      simp only [tryLits, h0] at h
      obtain ⟨rfl, rfl⟩ := Prod.mk.injEq .. ▸ Option.some.inj h
      exact ⟨List.mem_cons_self .., h0⟩
    | none =>
      simp only [tryLits, h0] at h
      obtain ⟨hm, hd⟩ := ih s l r h
      exact ⟨List.mem_cons_of_mem _ hm, hd⟩

theorem all_takeWhile (p : Char → Bool) : ∀ (l : List Char), ∀ c ∈ l.takeWhile p, p c = true := by
  intro l
  induction l with
  | nil => intro c hc; simp [List.takeWhile] at hc
  | cons a t ih =>
    intro c hc
    cases hp : p a with
    | true =>
      rw [List.takeWhile_cons, if_pos hp] at hc
      rcases List.mem_cons.mp hc with rfl | hmem
      · exact hp
      · exact ih c hmem
    | false => rw [List.takeWhile_cons, if_neg (by simp [hp])] at hc; simp at hc

theorem takeWhile_all_append (p : Char → Bool) :
    ∀ (ds rest : List Char), (∀ c ∈ ds, p c = true) →
      (ds ++ rest).takeWhile p = ds ++ rest.takeWhile p := by
  intro ds
  induction ds with
  | nil => intro rest _; simp
  | cons a t ih =>
    intro rest h
    have ha : p a = true := h a (List.mem_cons_self ..)
    simp only [List.cons_append, List.takeWhile_cons, if_pos ha]
    rw [ih rest (fun c hc => h c (List.mem_cons_of_mem _ hc))]

theorem dropWhile_all_append (p : Char → Bool) :
    ∀ (ds rest : List Char), (∀ c ∈ ds, p c = true) →
      (ds ++ rest).dropWhile p = rest.dropWhile p := by
  intro ds
  induction ds with
  | nil => intro rest _; simp
  | cons a t ih =>
    intro rest h
    have ha : p a = true := h a (List.mem_cons_self ..)
    simp only [List.cons_append, List.dropWhile_cons, if_pos ha]
    exact ih rest (fun c hc => h c (List.mem_cons_of_mem _ hc))

/-! ## Claim C2: game-category title splitting -/

/-- The game subject of the spec's worked example: primary title
`素人パイパン18歳 AIちゃん`, localized title `AIちゃん`. -/
def c2Game : DoubanGameSubject :=
  { title := str "素人パイパン18歳 AIちゃん"
    titleCN := str "AIちゃん"
    releaseDate := []
    developer := []
    publisher := []
    intro := []
    typ := []
    cover := []
    rating := none }

/-- C2: for the game category, if the primary title contains the
localized title, the canonical title is the localized title and the
alternate title is the primary title with the first occurrence of the
localized title removed and surrounding whitespace trimmed; otherwise
the primary title is canonical and the localized title is the
alternate.  In particular, the projection maps primary title
`素人パイパン18歳 AIちゃん` with localized title `AIちゃん` to
title `AIちゃん`, alternate title `素人パイパン18歳`. -/
theorem game_title_split :
    (∀ g : DoubanGameSubject,
      (containsStr g.title g.titleCN = true →
        (projectSubject (.game g)).title = g.titleCN ∧
        (projectSubject (.game g)).altTitle = trimSpace (replaceFirst g.title g.titleCN [])) ∧
      (containsStr g.title g.titleCN = false →
        (projectSubject (.game g)).title = g.title ∧
        (projectSubject (.game g)).altTitle = g.titleCN)) ∧
    (projectSubject (.game c2Game)).title = str "AIちゃん" ∧
    (projectSubject (.game c2Game)).altTitle = str "素人パイパン18歳" := by
  refine ⟨fun g => ⟨fun h => ?_, fun h => ?_⟩, ?_, ?_⟩
  · constructor <;> simp [projectSubject, h]
  · constructor <;> simp [projectSubject, h]
  · rfl
  · rfl

/-- C2 witness: the general half of `game_title_split`, instantiated at
the worked example, with its containment hypothesis discharged by
evaluation. -/
theorem game_title_split_witness :
    (projectSubject (.game c2Game)).title = c2Game.titleCN ∧
    (projectSubject (.game c2Game)).altTitle =
      trimSpace (replaceFirst c2Game.title c2Game.titleCN []) :=
  (game_title_split.1 c2Game).1 (by decide)

/-! ## Claim C10: empty localized game title -/

/-- C10: when the localized title is empty and the primary title is
non-empty, the containment test succeeds (every string contains the
empty string), the canonical title becomes empty, and the alternate
title becomes the whitespace-trimmed primary title. -/
theorem game_empty_localized_title (g : DoubanGameSubject)
    (hc : g.titleCN = []) (ht : g.title ≠ []) :
    containsStr g.title g.titleCN = true ∧
    (projectSubject (.game g)).title = [] ∧
    (projectSubject (.game g)).altTitle = trimSpace g.title := by
  have h1 : containsStr g.title g.titleCN = true := by
    rw [hc]; exact containsStr_nil _
  refine ⟨h1, ?_, ?_⟩
  · simp [projectSubject, hc, containsStr_nil]
  · simp [projectSubject, hc, containsStr_nil, replaceFirst]

/-- A game subject with a non-empty primary title and an empty
localized title. -/
def c10Game : DoubanGameSubject :=
  { title := str " Hades II "
    titleCN := []
    releaseDate := []
    developer := []
    publisher := []
    intro := []
    typ := []
    cover := []
    rating := none }

/-- C10 witness: `game_empty_localized_title` at a concrete subject. -/
theorem game_empty_localized_title_witness :
    containsStr c10Game.title c10Game.titleCN = true ∧
    (projectSubject (.game c10Game)).title = [] ∧
    (projectSubject (.game c10Game)).altTitle = trimSpace c10Game.title :=
  game_empty_localized_title c10Game rfl (by decide)

/-! ## Claim C5: rating backfill never errors -/

theorem extractLoop_eq_firstParsed (find : List Char → List Char → Option (List Char))
    (pf : List Char → Option ℚ) (html : List Char) :
    ∀ ps : List (List Char), extractLoop find pf html ps =
      (match ps.filterMap (fun p => (find p html).bind pf) with
       | [] => 0
       | v :: _ => v) := by
  intro ps
  induction ps with
  | nil => rfl
  | cons p ps ih =>
    cases hf : find p html with
    | none => simp [extractLoop, hf, List.filterMap_cons, ih]
    | some cap =>
      cases hp : pf cap with
      | none => simp [extractLoop, hf, hp, List.filterMap_cons, ih]
      | some v => simp [extractLoop, hf, hp, List.filterMap_cons]

/-- The spec's description of the scan, as a reference definition
following the claim's words: keep, in order, the patterns that both
match and whose capture parses, and return the first surviving value,
or the sentinel 0 when none survives. -/
def specFirstParsedRating (find : List Char → List Char → Option (List Char))
    (pf : List Char → Option ℚ) (html : List Char) : ℚ :=
  match ratingPatterns.filterMap (fun p => (find p html).bind pf) with
  | [] => 0
  | v :: _ => v

/-- A page body on which the first (most specific) source pattern
matches with capture `9.4`. -/
def c5Html : List Char :=
  str "<strong class=\"ll rating_num\" property=\"v:average\">9.4</strong>"

/-- A regexp-engine oracle consistent with the Go engine on `c5Html`:
every source pattern matches that body with capture `9.4`. -/
def c5Find (p html : List Char) : Option (List Char) :=
  if html = c5Html then some (str "9.4") else none

/-- A `strconv.ParseFloat` oracle consistent with the Go library on the
capture `9.4`. -/
def c5Parse (s : List Char) : Option ℚ :=
  if s = str "9.4" then some (47 / 5) else none

/-- C5 counterexample: a response with status 201 — a 2xx status — whose
body the scan would resolve to 9.4 still yields the sentinel 0, because
the source tests `resp.StatusCode != http.StatusOK`, i.e. it accepts
only status 200, not every 2xx status. -/
theorem fetchRating_counterexample :
    fetchRating c5Find c5Parse (.response 201 c5Html) = 0 ∧
    extractRatingFromHTML c5Find c5Parse c5Html = 47 / 5 := by
  exact ⟨rfl, rfl⟩

/-- C5 (amended): `fetchRating` never surfaces an error — request
construction failure and transport failure yield the sentinel 0, a
response with any status other than exactly 200 yields 0, and a 200
response is scanned with the fixed ordered pattern list, returning the
value of the first pattern that both matches and whose capture parses
(`specFirstParsedRating`), for every behavior of the regexp and
number-parsing collaborators. -/
theorem fetchRating_amended :
    (∀ find pf e, fetchRating find pf (.reqErr e) = 0) ∧
    (∀ find pf e, fetchRating find pf (.transport e) = 0) ∧
    (∀ find pf code body, fetchRating find pf (.response code body) =
       if code = 200 then extractRatingFromHTML find pf body else 0) ∧
    (∀ find pf html, extractRatingFromHTML find pf html = specFirstParsedRating find pf html) := by
  refine ⟨fun _ _ _ => rfl, fun _ _ _ => rfl, fun find pf code body => ?_, fun find pf html => ?_⟩
  · by_cases h : code = 200 <;> simp [fetchRating, h]
  · simpa [specFirstParsedRating, extractRatingFromHTML] using
      extractLoop_eq_firstParsed find pf html ratingPatterns

/-! ## Download-loop inversion lemmas -/

theorem downloadLoop_ok_inv (extFn : List Char → List Char) (atts : Nat → DLAttempt)
    (stem dir : List Char) :
    ∀ (rem i : Nat) (fs : FS) (p : List Char) (fs1 : FS),
      downloadLoop extFn atts stem dir rem i fs = (.ok p, fs1) →
      ∃ j ct body, i ≤ j ∧ j < i + rem ∧ atts j = .response 200 ct none (.ok body) ∧
        p = joinPath dir (stem ++ extFn ct) ∧ fs1 = fsInsert fs p body := by
  intro rem
  induction rem with
  | zero => intro i fs p fs1 h; simp [downloadLoop] at h
  | succ rem ih =>
    intro i fs p fs1 h
    cases ha : atts i with
    | reqErr e =>
      simp only [downloadLoop, ha] at h
      by_cases hr : rem = 0
      · simp [hr] at h
      · rw [if_neg hr] at h
        obtain ⟨j, ct, body, hj1, hj2, hatt, hp, hfs⟩ := ih (i + 1) fs p fs1 h
        exact ⟨j, ct, body, by omega, by omega, hatt, hp, hfs⟩
    | transport e =>
      simp only [downloadLoop, ha] at h
      by_cases hr : rem = 0
      · simp [hr] at h
      · rw [if_neg hr] at h
        obtain ⟨j, ct, body, hj1, hj2, hatt, hp, hfs⟩ := ih (i + 1) fs p fs1 h
        exact ⟨j, ct, body, by omega, by omega, hatt, hp, hfs⟩
    | response code ct cr cpr =>
      simp only [downloadLoop, ha] at h
      by_cases hc : code = 200
      · rw [if_neg (by simp [hc])] at h
        cases cr with
        | some e => simp at h
        | none =>
          cases cpr with
          | error ep => simp at h
          | ok body =>
            simp only at h
            obtain ⟨hp, hfs⟩ := Prod.mk.injEq .. ▸ h
            refine ⟨i, ct, body, le_refl i, by omega, by rw [ha, hc], ?_, ?_⟩
            · exact (Except.ok.inj hp).symm
            · rw [hfs.symm, (Except.ok.inj hp)]
      · rw [if_pos (by simp [hc])] at h
        by_cases hr : rem = 0
        · simp [hr] at h
        · rw [if_neg hr] at h
          obtain ⟨j, ct2, body, hj1, hj2, hatt, hp, hfs⟩ := ih (i + 1) fs p fs1 h
          exact ⟨j, ct2, body, by omega, by omega, hatt, hp, hfs⟩

theorem downloadLoop_error_clean (extFn : List Char → List Char) (atts : Nat → DLAttempt)
    (stem dir : List Char) :
    ∀ (rem i : Nat) (fs : FS) (e : DLErr) (fs1 : FS),
      downloadLoop extFn atts stem dir rem i fs = (.error e, fs1) →
      ∀ p, fs p = none → fs1 p = none := by
  intro rem
  induction rem with
  | zero =>
    intro i fs e fs1 h p hp
    simp only [downloadLoop] at h
    obtain ⟨-, hfs⟩ := Prod.mk.injEq .. ▸ h
    rw [← hfs]; exact hp
  | succ rem ih =>
    intro i fs e fs1 h p hp
    cases ha : atts i with
    | reqErr e2 =>
      simp only [downloadLoop, ha] at h
      by_cases hr : rem = 0
      · rw [if_pos hr] at h
        obtain ⟨-, hfs⟩ := Prod.mk.injEq .. ▸ h
        rw [← hfs]; exact hp
      · rw [if_neg hr] at h
        exact ih (i + 1) fs e fs1 h p hp
    | transport e2 =>
      simp only [downloadLoop, ha] at h
      by_cases hr : rem = 0
      · rw [if_pos hr] at h
        obtain ⟨-, hfs⟩ := Prod.mk.injEq .. ▸ h
        rw [← hfs]; exact hp
      · rw [if_neg hr] at h
        exact ih (i + 1) fs e fs1 h p hp
    | response code ct cr cpr =>
      simp only [downloadLoop, ha] at h
      by_cases hc : code = 200
      · rw [if_neg (by simp [hc])] at h
        cases cr with
        | some e2 =>
          obtain ⟨-, hfs⟩ := Prod.mk.injEq .. ▸ h
          rw [← hfs]; exact hp
        | none =>
          cases cpr with
          | error ep =>
            obtain ⟨ep1, part⟩ := ep
            simp only at h
            obtain ⟨-, hfs⟩ := Prod.mk.injEq .. ▸ h
            rw [← hfs]
            by_cases hpp : p = joinPath dir (stem ++ extFn ct) <;>
              simp [fsErase, fsInsert, hpp, hp]
          | ok body => simp at h
      · rw [if_pos (by simp [hc])] at h
        by_cases hr : rem = 0
        · rw [if_pos hr] at h
          obtain ⟨-, hfs⟩ := Prod.mk.injEq .. ▸ h
          rw [← hfs]; exact hp
        · rw [if_neg hr] at h
          exact ih (i + 1) fs e fs1 h p hp

/-! ## Claim C8: extension choice from Content-Type -/

/-- An attempt stream whose first attempt is a 200 response with
`Content-Type: image/gif` and a fully written body. -/
def c8Atts : Nat → DLAttempt := fun _ =>
  .response 200 (str "image/gif") none (.ok [1, 2, 3])

/-- C8 counterexample: on a `Content-Type` containing `gif`,
`downloadJavImage` saves a `.jpg` file, while the claimed uniform
mapping — the one `downloadImage` implements — chooses `.gif`: the
mapping is not uniform across the two asset-download functions. -/
theorem download_ext_counterexample :
    (downloadJavImage (str "https://x/cover") c8Atts (str "ABC-123") (str "javimages")
        (fun _ => none)).1 = .ok (str "javimages/ABC-123.jpg") ∧
    extFromContentType (str "image/gif") = str ".gif" := by
  exact ⟨rfl, rfl⟩

/-- C8 (amended): a successful `downloadImage` names the file by the
four-way mapping (`png` → `.png`, else `gif` → `.gif`, else `webp` →
`.webp`, else `.jpg`) applied to the succeeding attempt's
`Content-Type`, while a successful `downloadJavImage` uses the
three-way mapping with no `gif` case (`png` → `.png`, else `webp` →
`.webp`, else `.jpg` — a gif content type falls through to `.jpg`). -/
theorem download_ext_mapping :
    (∀ ct, extFromContentType ct =
       if containsStr ct (str "png") then str ".png"
       else if containsStr ct (str "gif") then str ".gif"
       else if containsStr ct (str "webp") then str ".webp"
       else str ".jpg") ∧
    (∀ ct, javExtFromContentType ct =
       if containsStr ct (str "png") then str ".png"
       else if containsStr ct (str "webp") then str ".webp"
       else str ".jpg") ∧
    (∀ url atts stem dir fs p fs1, downloadImage url atts stem dir fs = (.ok p, fs1) →
       ∃ j ct body, j < downloadRetries ∧ atts j = .response 200 ct none (.ok body) ∧
         p = joinPath dir (stem ++ extFromContentType ct)) ∧
    (∀ url atts stem dir fs p fs1, downloadJavImage url atts stem dir fs = (.ok p, fs1) →
       ∃ j ct body, j < downloadRetries ∧ atts j = .response 200 ct none (.ok body) ∧
         p = joinPath dir (stem ++ javExtFromContentType ct)) := by
  refine ⟨fun ct => rfl, fun ct => rfl, ?_, ?_⟩
  · intro url atts stem dir fs p fs1 h
    rw [downloadImage] at h
    by_cases hu : url = []
    · rw [if_pos hu] at h; simp at h
    · rw [if_neg hu] at h
      obtain ⟨j, ct, body, hj1, hj2, hatt, hp, hfs⟩ :=
        downloadLoop_ok_inv extFromContentType atts stem dir downloadRetries 0 fs p fs1 h
      exact ⟨j, ct, body, by omega, hatt, hp⟩
  · intro url atts stem dir fs p fs1 h
    rw [downloadJavImage] at h
    by_cases hu : url = []
    · rw [if_pos hu] at h; simp at h
    · rw [if_neg hu] at h
      obtain ⟨j, ct, body, hj1, hj2, hatt, hp, hfs⟩ :=
        downloadLoop_ok_inv javExtFromContentType atts stem dir downloadRetries 0 fs p fs1 h
      exact ⟨j, ct, body, by omega, hatt, hp⟩

/-- C8 witness: the success-inversion half of `download_ext_mapping`
at a concrete successful download (a `png` content type), with the
success hypothesis discharged by evaluation. -/
theorem download_ext_mapping_witness :
    ∃ j ct body, j < downloadRetries ∧
      (fun _ => DLAttempt.response 200 (str "image/png") none (.ok [7])) j =
        .response 200 ct none (.ok body) ∧
      str "images/42.png" = joinPath (str "images") (str "42" ++ extFromContentType ct) :=
  download_ext_mapping.2.2.1 (str "https://x") (fun _ => .response 200 (str "image/png") none (.ok [7]))
    (str "42") (str "images") (fun _ => none) (str "images/42.png")
    (fsInsert (fun _ => none) (str "images/42.png") [7]) rfl

/-! ## Claim C6: no partial file on failure -/

/-- C6: when `downloadImage` returns an error, every path that held no
file before the call holds no file after it — in particular, starting
from a state with no file at the destination path, no file (partial or
otherwise) remains there; in the copy-failure case specifically, the
created file is removed before the error is surfaced.  When the
download succeeds, the file at the returned path holds the full
response body of the succeeding attempt. -/
theorem downloadImage_no_partial_file :
    (∀ url atts sid dir fs e fs1, downloadImage url atts sid dir fs = (.error e, fs1) →
       ∀ p, fs p = none → fs1 p = none) ∧
    (∀ url atts sid dir fs p fs1, downloadImage url atts sid dir fs = (.ok p, fs1) →
       ∃ j ct body, j < downloadRetries ∧ atts j = .response 200 ct none (.ok body) ∧
         p = joinPath dir (sid ++ extFromContentType ct) ∧ fs1 p = some body) := by
  constructor
  · intro url atts sid dir fs e fs1 h p hp
    rw [downloadImage] at h
    by_cases hu : url = []
    · rw [if_pos hu] at h
      obtain ⟨-, hfs⟩ := Prod.mk.injEq .. ▸ h
      rw [← hfs]; exact hp
    · rw [if_neg hu] at h
      exact downloadLoop_error_clean extFromContentType atts sid dir downloadRetries 0 fs e fs1 h p hp
  · intro url atts sid dir fs p fs1 h
    rw [downloadImage] at h
    by_cases hu : url = []
    · rw [if_pos hu] at h; simp at h
    · rw [if_neg hu] at h
      obtain ⟨j, ct, body, hj1, hj2, hatt, hp, hfs⟩ :=
        downloadLoop_ok_inv extFromContentType atts sid dir downloadRetries 0 fs p fs1 h
      refine ⟨j, ct, body, by omega, hatt, hp, ?_⟩
      rw [hfs]; simp [fsInsert]

/-- An attempt stream that fails by transport error on every attempt. -/
def c6AttsFail : Nat → DLAttempt := fun _ => .transport (str "connection reset")

/-- An attempt stream that succeeds immediately with a png body. -/
def c6AttsOk : Nat → DLAttempt := fun _ =>
  .response 200 (str "image/png") none (.ok [1])

/-- C6 witness: `downloadImage_no_partial_file` at a concrete failing
stream (the destination path stays absent) and at a concrete
succeeding stream (the file holds the body). -/
theorem downloadImage_no_partial_file_witness :
    ((downloadImage (str "https://img") c6AttsFail (str "9") (str "images")
        (fun _ => none)).2 (str "images/9.jpg") = none) ∧
    (∃ j ct body, j < downloadRetries ∧ c6AttsOk j = .response 200 ct none (.ok body) ∧
       str "images/9.png" = joinPath (str "images") (str "9" ++ extFromContentType ct) ∧
       (downloadImage (str "https://img") c6AttsOk (str "9") (str "images")
          (fun _ => none)).2 (str "images/9.png") = some body) := by
  constructor
  · exact downloadImage_no_partial_file.1 (str "https://img") c6AttsFail (str "9") (str "images")
      (fun _ => none) (.transportExhausted (str "connection reset")) _ rfl (str "images/9.jpg") rfl
  · exact downloadImage_no_partial_file.2 (str "https://img") c6AttsOk (str "9") (str "images")
      (fun _ => none) (str "images/9.png") _ rfl

/-! ## Claim C3: retry budgets of the fetch primitives -/

/-- Is this attempt outcome one of the failure classes `requestAPI`
retries on?  (`client.Do` failure, non-200 status, body-read failure;
an `http.NewRequest` failure is returned immediately there.) -/
def isAPIRetryFail : APIAttempt → Bool
  | .reqErr _ => false
  | .transport _ => true
  | .response code rr =>
    if code = 200 then (match rr with | .error _ => true | .ok _ => false) else true

/-- The failure `requestAPI` records in its `err` variable for a
retried attempt. -/
def apiFailOf : APIAttempt → Option APIFail
  | .reqErr _ => none
  | .transport e => some (.transport e)
  | .response code rr =>
    if code = 200 then (match rr with | .error e => some (.readErr e) | .ok _ => none)
    else some (.badStatus code)

theorem requestAPIAux_step_fail (atts : Nat → APIAttempt) (fuel i : Nat) (last : Option APIFail)
    (h : isAPIRetryFail (atts i) = true) :
    requestAPIAux atts (fuel + 1) i last = requestAPIAux atts fuel (i + 1) (apiFailOf (atts i)) := by
  cases h0 : atts i with
  | reqErr e => rw [h0] at h; simp [isAPIRetryFail] at h
  | transport e => simp [requestAPIAux, h0, apiFailOf]
  | response code rr =>
    rw [h0] at h
    by_cases hc : code = 200
    · subst hc
      cases rr with
      | error e => simp [requestAPIAux, h0, apiFailOf]
      | ok b => simp [isAPIRetryFail] at h
    · simp [requestAPIAux, h0, apiFailOf, hc]

theorem requestAPIAux_step_ok (atts : Nat → APIAttempt) (fuel i : Nat) (last : Option APIFail)
    (b : Bytes) (h : atts i = .response 200 (.ok b)) :
    requestAPIAux atts (fuel + 1) i last = .ok b := by
  simp [requestAPIAux, h]

/-- Is this attempt outcome one of the failure classes `downloadImage`
retries on?  (Request construction, transport, non-200 status; a copy
failure on a 200 response is not retried.) -/
def isDLRetryFail : DLAttempt → Bool
  | .reqErr _ => true
  | .transport _ => true
  | .response code _ _ _ => if code = 200 then false else true

/-- The error `downloadImage` surfaces when its last attempt fails by a
retried class. -/
def dlFailErrOf : DLAttempt → DLErr
  | .reqErr e => .reqErrFinal e
  | .transport e => .transportExhausted e
  | .response code _ _ _ => .statusExhausted code

theorem downloadLoop_step_fail (extFn : List Char → List Char) (atts : Nat → DLAttempt)
    (stem dir : List Char) (rem i : Nat) (fs : FS) (h : isDLRetryFail (atts i) = true) :
    downloadLoop extFn atts stem dir (rem + 2) i fs =
      downloadLoop extFn atts stem dir (rem + 1) (i + 1) fs := by
  cases h0 : atts i with
  | reqErr e => simp [downloadLoop, h0]
  | transport e => simp [downloadLoop, h0]
  | response code ct cr cpr =>
    rw [h0] at h
    have hc : ¬ code = 200 := by
      intro hcc; rw [hcc] at h; simp [isDLRetryFail] at h
    simp [downloadLoop, h0, hc]

theorem downloadLoop_last_fail (extFn : List Char → List Char) (atts : Nat → DLAttempt)
    (stem dir : List Char) (i : Nat) (fs : FS) (h : isDLRetryFail (atts i) = true) :
    downloadLoop extFn atts stem dir 1 i fs = (.error (dlFailErrOf (atts i)), fs) := by
  cases h0 : atts i with
  | reqErr e => simp [downloadLoop, h0, dlFailErrOf]
  | transport e => simp [downloadLoop, h0, dlFailErrOf]
  | response code ct cr cpr =>
    rw [h0] at h
    have hc : ¬ code = 200 := by
      intro hcc; rw [hcc] at h; simp [isDLRetryFail] at h
    simp [downloadLoop, h0, hc, dlFailErrOf]

theorem downloadLoop_step_ok (extFn : List Char → List Char) (atts : Nat → DLAttempt)
    (stem dir : List Char) (rem i : Nat) (fs : FS) (ct : List Char) (body : Bytes)
    (h : atts i = .response 200 ct none (.ok body)) :
    downloadLoop extFn atts stem dir (rem + 1) i fs =
      (.ok (joinPath dir (stem ++ extFn ct)),
       fsInsert fs (joinPath dir (stem ++ extFn ct)) body) := by
  simp [downloadLoop, h]

theorem downloadLoop_step_saveErr (extFn : List Char → List Char) (atts : Nat → DLAttempt)
    (stem dir : List Char) (rem i : Nat) (fs : FS) (ct : List Char) (e : GoErr) (part : Bytes)
    (h : atts i = .response 200 ct none (.error (e, part))) :
    downloadLoop extFn atts stem dir (rem + 1) i fs =
      (.error (.saveFailed e),
       fsErase (fsInsert fs (joinPath dir (stem ++ extFn ct)) part)
         (joinPath dir (stem ++ extFn ct))) := by
  simp [downloadLoop, h]

/-- An attempt stream for `downloadImage` whose first attempt reaches a
200 response but fails while the body is being read/saved, and whose
second attempt would succeed. -/
def c3Atts : Nat → DLAttempt := fun i =>
  if i = 0 then .response 200 (str "image/jpeg") none (.error (str "read: connection reset", [9]))
  else .response 200 (str "image/jpeg") none (.ok [1, 2, 3])

/-- C3 counterexample: for `downloadImage`, attempt 1 fails by a
body-read failure and attempt 2 would succeed — well within the
3-attempt budget — yet the function aborts immediately with an error
instead of retrying and returning the second attempt's body: the
body-read failure class is not retried on the asset-download call
site. -/
theorem fetch_retry_counterexample :
    (downloadImage (str "https://img") c3Atts (str "123") (str "images") (fun _ => none)).1 =
      .error (.saveFailed (str "read: connection reset")) := rfl

/-- C3 (amended): `requestAPI` retries on its three failure classes —
transport failure, a status other than exactly 200, and body-read
failure — with a budget of exactly 2 attempts, returns the body of the
first successful attempt (a 200 response with a completed body read),
and after exhausting the budget fails with an exhaustion error
carrying the last recorded failure.  `downloadImage` retries on
request-construction, transport and non-200-status failures with a
budget of exactly 3 attempts and returns the saved path on the first
successful attempt; its exhaustion error carries the last attempt's
failure; but a body read/save failure on a 200 response aborts
immediately with an error without consuming the remaining budget. -/
theorem fetch_retry_amended :
    (∀ atts b, atts 0 = .response 200 (.ok b) → requestAPI atts = .ok b) ∧
    (∀ atts b, isAPIRetryFail (atts 0) = true → atts 1 = .response 200 (.ok b) →
       requestAPI atts = .ok b) ∧
    (∀ atts, isAPIRetryFail (atts 0) = true → isAPIRetryFail (atts 1) = true →
       requestAPI atts = .error (.exhausted (apiFailOf (atts 1)))) ∧
    (∀ url atts sid dir fs j ct body, url ≠ [] → j < downloadRetries →
       (∀ k, k < j → isDLRetryFail (atts k) = true) →
       atts j = .response 200 ct none (.ok body) →
       (downloadImage url atts sid dir fs).1 = .ok (joinPath dir (sid ++ extFromContentType ct))) ∧
    (∀ url atts sid dir fs, url ≠ [] →
       (∀ k, k < downloadRetries → isDLRetryFail (atts k) = true) →
       (downloadImage url atts sid dir fs).1 = .error (dlFailErrOf (atts 2))) ∧
    (∀ url atts sid dir fs j ct e part, url ≠ [] → j < downloadRetries →
       (∀ k, k < j → isDLRetryFail (atts k) = true) →
       atts j = .response 200 ct none (.error (e, part)) →
       (downloadImage url atts sid dir fs).1 = .error (.saveFailed e)) := by
  refine ⟨?_, ?_, ?_, ?_, ?_, ?_⟩
  · intro atts b h
    exact requestAPIAux_step_ok atts 1 0 none b h
  · intro atts b h0 h1
    have s0 : requestAPIAux atts 2 0 none = requestAPIAux atts 1 1 (apiFailOf (atts 0)) :=
      requestAPIAux_step_fail atts 1 0 none h0
    have s1 : requestAPIAux atts 1 1 (apiFailOf (atts 0)) = .ok b :=
      requestAPIAux_step_ok atts 0 1 (apiFailOf (atts 0)) b h1
    exact s0.trans s1
  · intro atts h0 h1
    have s0 : requestAPIAux atts 2 0 none = requestAPIAux atts 1 1 (apiFailOf (atts 0)) :=
      requestAPIAux_step_fail atts 1 0 none h0
    have s1 : requestAPIAux atts 1 1 (apiFailOf (atts 0)) =
        requestAPIAux atts 0 2 (apiFailOf (atts 1)) :=
      requestAPIAux_step_fail atts 0 1 (apiFailOf (atts 0)) h1
    exact (s0.trans s1).trans rfl
  · intro url atts sid dir fs j ct body hu hj hpre hatt
    simp only [show downloadRetries = 3 from rfl] at hj
    rw [downloadImage, if_neg hu]
    interval_cases j
    · have s0 : downloadLoop extFromContentType atts sid dir 3 0 fs =
          (.ok (joinPath dir (sid ++ extFromContentType ct)),
           fsInsert fs (joinPath dir (sid ++ extFromContentType ct)) body) :=
        downloadLoop_step_ok extFromContentType atts sid dir 2 0 fs ct body hatt
      rw [show downloadRetries = 3 from rfl, s0]
    · have s0 : downloadLoop extFromContentType atts sid dir 3 0 fs =
          downloadLoop extFromContentType atts sid dir 2 1 fs :=
        downloadLoop_step_fail extFromContentType atts sid dir 1 0 fs (hpre 0 (by omega))
      have s1 : downloadLoop extFromContentType atts sid dir 2 1 fs =
          (.ok (joinPath dir (sid ++ extFromContentType ct)),
           fsInsert fs (joinPath dir (sid ++ extFromContentType ct)) body) :=
        downloadLoop_step_ok extFromContentType atts sid dir 1 1 fs ct body hatt
      rw [show downloadRetries = 3 from rfl, s0, s1]
    · have s0 : downloadLoop extFromContentType atts sid dir 3 0 fs =
          downloadLoop extFromContentType atts sid dir 2 1 fs :=
        downloadLoop_step_fail extFromContentType atts sid dir 1 0 fs (hpre 0 (by omega))
      have s1 : downloadLoop extFromContentType atts sid dir 2 1 fs =
          downloadLoop extFromContentType atts sid dir 1 2 fs :=
        downloadLoop_step_fail extFromContentType atts sid dir 0 1 fs (hpre 1 (by omega))
      have s2 : downloadLoop extFromContentType atts sid dir 1 2 fs =
          (.ok (joinPath dir (sid ++ extFromContentType ct)),
           fsInsert fs (joinPath dir (sid ++ extFromContentType ct)) body) :=
        downloadLoop_step_ok extFromContentType atts sid dir 0 2 fs ct body hatt
      rw [show downloadRetries = 3 from rfl, s0, s1, s2]
  · intro url atts sid dir fs hu hall
    rw [downloadImage, if_neg hu]
    have s0 : downloadLoop extFromContentType atts sid dir 3 0 fs =
        downloadLoop extFromContentType atts sid dir 2 1 fs :=
      downloadLoop_step_fail extFromContentType atts sid dir 1 0 fs (hall 0 (by decide))
    have s1 : downloadLoop extFromContentType atts sid dir 2 1 fs =
        downloadLoop extFromContentType atts sid dir 1 2 fs :=
      downloadLoop_step_fail extFromContentType atts sid dir 0 1 fs (hall 1 (by decide))
    have s2 : downloadLoop extFromContentType atts sid dir 1 2 fs =
        (.error (dlFailErrOf (atts 2)), fs) :=
      downloadLoop_last_fail extFromContentType atts sid dir 2 fs (hall 2 (by decide))
    rw [show downloadRetries = 3 from rfl, s0, s1, s2]
  · intro url atts sid dir fs j ct e part hu hj hpre hatt
    simp only [show downloadRetries = 3 from rfl] at hj
    rw [downloadImage, if_neg hu]
    interval_cases j
    · have s0 : downloadLoop extFromContentType atts sid dir 3 0 fs =
          (.error (.saveFailed e),
           fsErase (fsInsert fs (joinPath dir (sid ++ extFromContentType ct)) part)
             (joinPath dir (sid ++ extFromContentType ct))) :=
        downloadLoop_step_saveErr extFromContentType atts sid dir 2 0 fs ct e part hatt
      rw [show downloadRetries = 3 from rfl, s0]
    · have s0 : downloadLoop extFromContentType atts sid dir 3 0 fs =
          downloadLoop extFromContentType atts sid dir 2 1 fs :=
        downloadLoop_step_fail extFromContentType atts sid dir 1 0 fs (hpre 0 (by omega))
      have s1 : downloadLoop extFromContentType atts sid dir 2 1 fs =
          (.error (.saveFailed e),
           fsErase (fsInsert fs (joinPath dir (sid ++ extFromContentType ct)) part)
             (joinPath dir (sid ++ extFromContentType ct))) :=
        downloadLoop_step_saveErr extFromContentType atts sid dir 1 1 fs ct e part hatt
      rw [show downloadRetries = 3 from rfl, s0, s1]
    · have s0 : downloadLoop extFromContentType atts sid dir 3 0 fs =
          downloadLoop extFromContentType atts sid dir 2 1 fs :=
        downloadLoop_step_fail extFromContentType atts sid dir 1 0 fs (hpre 0 (by omega))
      have s1 : downloadLoop extFromContentType atts sid dir 2 1 fs =
          downloadLoop extFromContentType atts sid dir 1 2 fs :=
        downloadLoop_step_fail extFromContentType atts sid dir 0 1 fs (hpre 1 (by omega))
      have s2 : downloadLoop extFromContentType atts sid dir 1 2 fs =
          (.error (.saveFailed e),
           fsErase (fsInsert fs (joinPath dir (sid ++ extFromContentType ct)) part)
             (joinPath dir (sid ++ extFromContentType ct))) :=
        downloadLoop_step_saveErr extFromContentType atts sid dir 0 2 fs ct e part hatt
      rw [show downloadRetries = 3 from rfl, s0, s1, s2]

/-- A `requestAPI` attempt stream: transport failure, then success. -/
def c3ApiAtts : Nat → APIAttempt := fun i =>
  if i = 0 then .transport (str "timeout") else .response 200 (.ok [10, 20])

/-- A `requestAPI` attempt stream: transport failure, then a 404. -/
def c3ApiAttsBad : Nat → APIAttempt := fun i =>
  if i = 0 then .transport (str "timeout") else .response 404 (.ok [])

/-- A `downloadImage` attempt stream: transport failure, then success. -/
def c3DlAtts : Nat → DLAttempt := fun i =>
  if i = 0 then .transport (str "timeout")
  else .response 200 (str "image/webp") none (.ok [5])

/-- A `downloadImage` attempt stream failing with status 500 forever. -/
def c3DlAttsBad : Nat → DLAttempt := fun _ => .response 500 (str "text/html") none (.ok [])

/-- C3 witness: every conjunct of `fetch_retry_amended` at a concrete
attempt stream, with every hypothesis discharged by evaluation. -/
theorem fetch_retry_amended_witness :
    requestAPI (fun _ => .response 200 (.ok [1])) = .ok [1] ∧
    requestAPI c3ApiAtts = .ok [10, 20] ∧
    requestAPI c3ApiAttsBad = .error (.exhausted (apiFailOf (c3ApiAttsBad 1))) ∧
    (downloadImage (str "https://img") c3DlAtts (str "7") (str "images") (fun _ => none)).1 =
      .ok (joinPath (str "images") (str "7" ++ extFromContentType (str "image/webp"))) ∧
    (downloadImage (str "https://img") c3DlAttsBad (str "7") (str "images") (fun _ => none)).1 =
      .error (dlFailErrOf (c3DlAttsBad 2)) ∧
    (downloadImage (str "https://img") c3Atts (str "123") (str "images") (fun _ => none)).1 =
      .error (.saveFailed (str "read: connection reset")) := by
  refine ⟨?_, ?_, ?_, ?_, ?_, ?_⟩
  · exact fetch_retry_amended.1 (fun _ => .response 200 (.ok [1])) [1] rfl
  · exact fetch_retry_amended.2.1 c3ApiAtts [10, 20] (by decide) rfl
  · exact fetch_retry_amended.2.2.1 c3ApiAttsBad (by decide) (by decide)
  · exact fetch_retry_amended.2.2.2.1 (str "https://img") c3DlAtts (str "7") (str "images")
      (fun _ => none) 1 (str "image/webp") [5] (by decide) (by decide)
      (fun k hk => by interval_cases k; decide) rfl
  · exact fetch_retry_amended.2.2.2.2.1 (str "https://img") c3DlAttsBad (str "7") (str "images")
      (fun _ => none) (by decide) (fun k hk => rfl)
  · exact fetch_retry_amended.2.2.2.2.2 (str "https://img") c3Atts (str "123") (str "images")
      (fun _ => none) 0 (str "image/jpeg") (str "read: connection reset") [9] (by decide)
      (by decide) (fun k hk => absurd hk (Nat.not_lt_zero k)) rfl

/-! ## Claims C4 and C7: create-path orchestration -/

theorem addMovie_events (m : MediaSubject) (sid url : List Char) (br : ℚ)
    (dl : Except DLErr (List Char)) :
    (addMovieCreatePath m sid url br dl).2 =
      (if m.rating = 0 then [OrchEvent.mapper, OrchEvent.backfill] else [OrchEvent.mapper]) ++
      (if m.imageURL ≠ [] then [OrchEvent.download] else []) ++ [OrchEvent.create] := by
  by_cases h : m.rating = 0 <;> by_cases hi : m.imageURL = [] <;>
    cases dl <;> simp [addMovieCreatePath, h, hi]

/-- C4: in a create-path resolution, a mapped rating of 0 means the
backfill is invoked exactly once, after the mapper completes and
before any asset download; a non-zero mapped rating means the backfill
is never invoked. -/
theorem addMovie_backfill_ordering :
    (∀ m sid url br dl, m.rating = 0 →
       ((addMovieCreatePath m sid url br dl).2.count OrchEvent.backfill = 1) ∧
       ((addMovieCreatePath m sid url br dl).2.indexOf OrchEvent.mapper <
        (addMovieCreatePath m sid url br dl).2.indexOf OrchEvent.backfill) ∧
       (OrchEvent.download ∈ (addMovieCreatePath m sid url br dl).2 →
        (addMovieCreatePath m sid url br dl).2.indexOf OrchEvent.backfill <
        (addMovieCreatePath m sid url br dl).2.indexOf OrchEvent.download)) ∧
    (∀ m sid url br dl, m.rating ≠ 0 →
       (addMovieCreatePath m sid url br dl).2.count OrchEvent.backfill = 0) := by
  constructor
  · intro m sid url br dl h
    rw [addMovie_events]
    by_cases hi : m.imageURL = [] <;> simp [h, hi]
  · intro m sid url br dl h
    rw [addMovie_events]
    by_cases hi : m.imageURL = [] <;> simp [h, hi]

/-- A canonical record whose mapped rating is the sentinel 0 and whose
image URL is non-empty. -/
def c4Media : MediaSubject :=
  { title := str "The Shawshank Redemption"
    altTitle := []
    creator := str "Frank Darabont"
    press := []
    pubDate := str "1994-09-10"
    summary := []
    imageURL := str "https://img.example/p480747492.jpg"
    rating := 0 }

/-- A canonical record whose mapped rating is non-zero. -/
def c7Media : MediaSubject :=
  { title := str "The Shawshank Redemption"
    altTitle := []
    creator := str "Frank Darabont"
    press := []
    pubDate := str "1994-09-10"
    summary := []
    imageURL := str "https://img.example/p480747492.jpg"
    rating := 47 / 5 }

/-- C4 witness: `addMovie_backfill_ordering` at concrete records, with
the sentinel-rating and membership hypotheses discharged by
evaluation. -/
theorem addMovie_backfill_ordering_witness :
    ((addMovieCreatePath c4Media (str "1292052") (str "u") (47 / 5)
        (.ok (str "images/1292052.jpg"))).2.count OrchEvent.backfill = 1) ∧
    ((addMovieCreatePath c4Media (str "1292052") (str "u") (47 / 5)
        (.ok (str "images/1292052.jpg"))).2.indexOf OrchEvent.mapper <
     (addMovieCreatePath c4Media (str "1292052") (str "u") (47 / 5)
        (.ok (str "images/1292052.jpg"))).2.indexOf OrchEvent.backfill) ∧
    ((addMovieCreatePath c4Media (str "1292052") (str "u") (47 / 5)
        (.ok (str "images/1292052.jpg"))).2.indexOf OrchEvent.backfill <
     (addMovieCreatePath c4Media (str "1292052") (str "u") (47 / 5)
        (.ok (str "images/1292052.jpg"))).2.indexOf OrchEvent.download) ∧
    ((addMovieCreatePath c7Media (str "1292052") (str "u") 0
        (.ok (str "images/1292052.jpg"))).2.count OrchEvent.backfill = 0) := by
  refine ⟨?_, ?_, ?_, ?_⟩
  · exact (addMovie_backfill_ordering.1 c4Media (str "1292052") (str "u") (47 / 5)
      (.ok (str "images/1292052.jpg")) rfl).1
  · exact (addMovie_backfill_ordering.1 c4Media (str "1292052") (str "u") (47 / 5)
      (.ok (str "images/1292052.jpg")) rfl).2.1
  · exact (addMovie_backfill_ordering.1 c4Media (str "1292052") (str "u") (47 / 5)
      (.ok (str "images/1292052.jpg")) rfl).2.2 (by rw [addMovie_events]; decide)
  · exact addMovie_backfill_ordering.2 c7Media (str "1292052") (str "u") 0
      (.ok (str "images/1292052.jpg")) (by norm_num [c7Media])

/-- C7: when the canonical record's image URL is non-empty and the
asset download fails, the create-path resolution still runs to the
persistence hand-off, and the persisted record's image reference is
exactly the remote image URL of the canonical record, unchanged (the
`/images/` rewriting only happens on download success). -/
theorem addMovie_image_fallback (m : MediaSubject) (sid url : List Char) (br : ℚ)
    (e : DLErr) (hi : m.imageURL ≠ []) :
    (addMovieCreatePath m sid url br (.error e)).1.imageURL = m.imageURL ∧
    OrchEvent.download ∈ (addMovieCreatePath m sid url br (.error e)).2 ∧
    OrchEvent.create ∈ (addMovieCreatePath m sid url br (.error e)).2 := by
  refine ⟨?_, ?_, ?_⟩
  · by_cases h : m.rating = 0 <;> simp [addMovieCreatePath, h, hi]
  · rw [addMovie_events]; simp [hi]
  · rw [addMovie_events]; by_cases h : m.rating = 0 <;> simp [h, hi]

/-- C7 witness: `addMovie_image_fallback` at a concrete record and a
concrete download failure. -/
theorem addMovie_image_fallback_witness :
    (addMovieCreatePath c7Media (str "1292052") (str "u") 0
        (.error (.transportExhausted (str "timeout")))).1.imageURL = c7Media.imageURL ∧
    OrchEvent.download ∈ (addMovieCreatePath c7Media (str "1292052") (str "u") 0
        (.error (.transportExhausted (str "timeout")))).2 ∧
    OrchEvent.create ∈ (addMovieCreatePath c7Media (str "1292052") (str "u") 0
        (.error (.transportExhausted (str "timeout")))).2 :=
  addMovie_image_fallback c7Media (str "1292052") (str "u") 0
    (.transportExhausted (str "timeout")) (by decide)

/-! ## Claim C9: subprocess output consumption -/

/-- An output in which both markers occur but the first end-marker
occurrence precedes the first start-marker occurrence. -/
def c9Output : List Char := str "__JSON_END____JSON_START__"

/-- C9 counterexample: on an output containing both markers with the
first `__JSON_END__` before the first `__JSON_START__`, the slice
`outputStr[startIdx+14:endIdx]` has inverted bounds and the Go routine
panics instead of extracting text or returning the marker-absent
error — the claimed behavior does not cover every output string. -/
theorem fetchJav_counterexample :
    strIndex c9Output startMarker = some 12 ∧
    strIndex c9Output endMarker = some 0 ∧
    fetchJavInfoFromPython c9Output (fun _ => none) = .error .slicePanic := by
  exact ⟨rfl, rfl, rfl⟩

/-- C9 (amended): when both markers occur and the first start-marker
occurrence ends at or before the first end-marker occurrence, the
consumer processes exactly the text between those occurrences
(trimmed), ignoring all output outside the markers; if either marker
is absent it fails with an error carrying the full output; if the
first end-marker occurrence precedes the end of the first start-marker
occurrence, the slice bounds invert and the routine panics; and in the
parsed object, a key that is absent or whose value is not a string is
read as the empty string, while a string value is returned as is. -/
theorem fetchJav_amended :
    (∀ output parse si ei,
       strIndex output startMarker = some si →
       strIndex output endMarker = some ei →
       si + startMarker.length ≤ ei →
       fetchJavInfoFromPython output parse =
         javProcessPayload parse
           (trimSpace ((output.drop (si + startMarker.length)).take
             (ei - (si + startMarker.length))))) ∧
    (∀ output parse, strIndex output startMarker = none →
       fetchJavInfoFromPython output parse = .error (.noJson output)) ∧
    (∀ output parse, strIndex output endMarker = none →
       fetchJavInfoFromPython output parse = .error (.noJson output)) ∧
    (∀ output parse si ei,
       strIndex output startMarker = some si →
       strIndex output endMarker = some ei →
       ei < si + startMarker.length →
       fetchJavInfoFromPython output parse = .error .slicePanic) ∧
    (∀ m key, lookupAssoc m key = none → getString m key = []) ∧
    (∀ m key v, lookupAssoc m key = some v → (∀ s, v ≠ JsonVal.strv s) →
       getString m key = []) ∧
    (∀ m key s, lookupAssoc m key = some (JsonVal.strv s) → getString m key = s) := by
  refine ⟨?_, ?_, ?_, ?_, ?_, ?_, ?_⟩
  · intro output parse si ei h1 h2 hle
    simp only [fetchJavInfoFromPython, h1, h2]
    rw [if_pos hle]
  · intro output parse h1
    cases h2 : strIndex output endMarker <;>
      simp only [fetchJavInfoFromPython, h1, h2]
  · intro output parse h2
    cases h1 : strIndex output startMarker <;>
      simp only [fetchJavInfoFromPython, h1, h2]
  · intro output parse si ei h1 h2 hlt
    simp only [fetchJavInfoFromPython, h1, h2]
    rw [if_neg (by omega)]
  · intro m key h; simp [getString, h]
  · intro m key v h hv
    cases v with
    | strv s => exact absurd rfl (hv s)
    | null => simp [getString, h]
    | boolv b => simp [getString, h]
    | num q => simp [getString, h]
    | arr l => simp [getString, h]
    | obj m2 => simp [getString, h]
  · intro m key s h; simp [getString, h]

/-- An output with diagnostic noise around a well-delimited payload. -/
def c9wOutput : List Char := str "noise__JSON_START__PAYLOAD__JSON_END__tail"

/-- An output with the end marker absent. -/
def c9wNoEnd : List Char := str "x__JSON_START__y"

/-- An output with both markers but inverted first occurrences. -/
def c9wInverted : List Char := str "A__JSON_END__B__JSON_START__C"

/-- A small decoded JSON object with a string field and a number
field. -/
def c9wMap : List (List Char × JsonVal) :=
  [(str "title", .strv (str "T")), (str "year", .num 2020)]

/-- C9 witness: every conjunct of `fetchJav_amended` at concrete
outputs and objects, with the index and ordering hypotheses discharged
by evaluation. -/
theorem fetchJav_amended_witness :
    fetchJavInfoFromPython c9wOutput (fun _ => none) =
      javProcessPayload (fun _ => none)
        (trimSpace ((c9wOutput.drop (5 + startMarker.length)).take
          (26 - (5 + startMarker.length)))) ∧
    fetchJavInfoFromPython (str "plain interpreter noise") (fun _ => none) =
      .error (.noJson (str "plain interpreter noise")) ∧
    fetchJavInfoFromPython c9wNoEnd (fun _ => none) = .error (.noJson c9wNoEnd) ∧
    fetchJavInfoFromPython c9wInverted (fun _ => none) = .error .slicePanic ∧
    getString c9wMap (str "actor") = [] ∧
    getString c9wMap (str "year") = [] ∧
    getString c9wMap (str "title") = str "T" := by
  refine ⟨?_, ?_, ?_, ?_, ?_, ?_, ?_⟩
  · exact fetchJav_amended.1 c9wOutput (fun _ => none) 5 26 rfl rfl (by decide)
  · exact fetchJav_amended.2.1 (str "plain interpreter noise") (fun _ => none) rfl
  · exact fetchJav_amended.2.2.1 c9wNoEnd (fun _ => none) rfl
  · exact fetchJav_amended.2.2.2.1 c9wInverted (fun _ => none) 14 1 rfl rfl (by decide)
  · exact fetchJav_amended.2.2.2.2.1 c9wMap (str "actor") rfl
  · exact fetchJav_amended.2.2.2.2.2.1 c9wMap (str "year") (.num 2020) rfl
      (fun s hh => JsonVal.noConfusion hh)
  · exact fetchJav_amended.2.2.2.2.2.2 c9wMap (str "title") (str "T") rfl

/-! ## Claim C1: URL resolution -/

theorem matchDoubanURL_tail (host seg : List Char) (hh : host ∈ doubanHosts)
    (hs : seg ∈ doubanSegs) (s5 : List Char) :
    matchDoubanURL (str "https://" ++ (host ++ '/' :: (seg ++ '/' :: s5))) =
      (if s5.takeWhile isDigitChar ≠ [] ∧
          (s5.dropWhile isDigitChar = [] ∨ s5.dropWhile isDigitChar = ['/'])
       then some (host, s5.takeWhile isDigitChar) else none) := by
  simp only [doubanHosts, List.mem_cons, List.not_mem_nil, or_false] at hh
  simp only [doubanSegs, List.mem_cons, List.not_mem_nil, or_false] at hs
  rcases hh with rfl | rfl | rfl <;> rcases hs with rfl | rfl <;> rfl

theorem matchDoubanURL_complete (host seg ds tail : List Char) (hh : host ∈ doubanHosts)
    (hs : seg ∈ doubanSegs) (hds : ds ≠ []) (hdig : ∀ c ∈ ds, isDigitChar c = true)
    (ht : tail = [] ∨ tail = ['/']) :
    matchDoubanURL (str "https://" ++ (host ++ '/' :: (seg ++ '/' :: (ds ++ tail)))) =
      some (host, ds) := by
  rw [matchDoubanURL_tail host seg hh hs (ds ++ tail)]
  have h1 : (ds ++ tail).takeWhile isDigitChar = ds ++ tail.takeWhile isDigitChar :=
    takeWhile_all_append isDigitChar ds tail hdig
  have h2 : (ds ++ tail).dropWhile isDigitChar = tail.dropWhile isDigitChar :=
    dropWhile_all_append isDigitChar ds tail hdig
  rcases ht with rfl | rfl
  · have h3 : List.takeWhile isDigitChar ([] : List Char) = [] := rfl
    have h4 : List.dropWhile isDigitChar ([] : List Char) = [] := rfl
    rw [h1, h2, h3, h4, List.append_nil]
    rw [if_pos ⟨hds, Or.inl rfl⟩]
  · have h3 : List.takeWhile isDigitChar ['/'] = [] := rfl
    have h4 : List.dropWhile isDigitChar ['/'] = ['/'] := rfl
    rw [h1, h2, h3, h4, List.append_nil]
    rw [if_pos ⟨hds, Or.inr rfl⟩]

theorem matchDoubanURL_sound (url host ds : List Char)
    (h : matchDoubanURL url = some (host, ds)) :
    ∃ seg tail, host ∈ doubanHosts ∧ seg ∈ doubanSegs ∧ ds ≠ [] ∧
      (∀ c ∈ ds, isDigitChar c = true) ∧ (tail = [] ∨ tail = ['/']) ∧
      url = str "https://" ++ (host ++ '/' :: (seg ++ '/' :: (ds ++ tail))) := by
  unfold matchDoubanURL at h
  cases h0 : dropLit (str "https://") url with
  | none => rw [h0] at h; simp at h
  | some s1 =>
    rw [h0] at h
    dsimp only at h
    cases h1 : tryLits doubanHosts s1 with
    | none => rw [h1] at h; simp at h
    | some pr =>
      obtain ⟨host1, s2⟩ := pr
      rw [h1] at h
      dsimp only at h
      cases h2 : dropLit ['/'] s2 with
      | none => rw [h2] at h; simp at h
      | some s3 =>
        rw [h2] at h
        dsimp only at h
        cases h3 : tryLits doubanSegs s3 with
        | none => rw [h3] at h; simp at h
        | some pr2 =>
          obtain ⟨seg, s4⟩ := pr2
          rw [h3] at h
          dsimp only at h
          cases h4 : dropLit ['/'] s4 with
          | none => rw [h4] at h; simp at h
          | some s5 =>
            rw [h4] at h
            dsimp only at h
            by_cases hc : (s5.takeWhile isDigitChar ≠ [] ∧
                (s5.dropWhile isDigitChar = [] ∨ s5.dropWhile isDigitChar = ['/']))
            · rw [if_pos hc] at h
              have hinj := Option.some.inj h
              have hhost : host1 = host := congrArg Prod.fst hinj
              have hds0 : s5.takeWhile isDigitChar = ds := congrArg Prod.snd hinj
              subst hhost
              obtain ⟨hm1, hd1⟩ := tryLits_sound doubanHosts s1 host1 s2 h1
              obtain ⟨hm3, hd3⟩ := tryLits_sound doubanSegs s3 seg s4 h3
              refine ⟨seg, s5.dropWhile isDigitChar, hm1, hm3, ?_, ?_, ?_, ?_⟩
              · rw [← hds0]; exact hc.1
              · intro c hcm; rw [← hds0] at hcm; exact all_takeWhile isDigitChar s5 c hcm
              · exact hc.2
              · have e0 : url = str "https://" ++ s1 := dropLit_sound _ url s1 h0
                have e1 : s1 = host1 ++ s2 := dropLit_sound _ s1 s2 hd1
                have e2 : s2 = '/' :: s3 := dropLit_sound ['/'] s2 s3 h2
                have e3 : s3 = seg ++ s4 := dropLit_sound _ s3 s4 hd3
                have e4 : s4 = '/' :: s5 := dropLit_sound ['/'] s4 s5 h4
                have e5 : s5 = ds ++ s5.dropWhile isDigitChar := by
                  rw [← hds0]
                  exact (List.takeWhile_append_dropWhile isDigitChar s5).symm
                rw [e0, e1, e2, e3, e4, ← e5]
            · rw [if_neg hc] at h; simp at h

theorem validHosts_sub (cat : List Char) (hosts : List (List Char))
    (h : validHosts cat = some hosts) : ∀ x ∈ hosts, x ∈ doubanHosts := by
  unfold validHosts at h
  split_ifs at h with h1 h2 h3
  · obtain rfl := Option.some.inj h
    intro x hx
    simp only [List.mem_singleton] at hx
    subst hx; decide
  · obtain rfl := Option.some.inj h
    intro x hx
    simp only [List.mem_singleton] at hx
    subst hx; decide
  · obtain rfl := Option.some.inj h
    intro x hx
    simp only [List.mem_singleton] at hx
    subst hx; decide

/-- Reference definition following the claim's words: the claimed
category-specific path rule — segment `subject` for every category,
segment `game` only for the game category. -/
def claimSegAllowed (subjectType seg : List Char) : Bool :=
  seg = str "subject" || (subjectType = str "game" && seg = str "game")

/-- C1 counterexample: `ParseDoubanURL` accepts the URL
`https://book.douban.com/game/1000000/` for the book category and
returns the digit run, although the claimed path rule forbids the
`game` segment outside the game category: the source pattern does not
tie the path segment to the category, only the host. -/
theorem parseDoubanURL_counterexample :
    ParseDoubanURL (str "https://book.douban.com/game/1000000/") (str "book") =
      .ok (str "1000000") ∧
    claimSegAllowed (str "book") (str "game") = false := by
  exact ⟨rfl, rfl⟩

/-- C1 (amended): resolution succeeds with exactly the digit run if and
only if the URL is `https://`, then a host in the requested (known)
category's allow-list (book → book.douban.com; movie/tv/anime →
movie.douban.com; game → www.douban.com), then a path segment that is
`subject` or `game` — for every category: the pattern does not tie the
segment to the category — then a non-empty digit run and an optional
trailing slash.  A pattern-matching URL whose host is outside the
requested known category's allow-list fails with the host-mismatch
error even though the path is valid, and a pattern-matching URL with
an unrecognized category fails with the unsupported-category error. -/
theorem parseDoubanURL_amended :
    (∀ cat hosts host seg ds tail,
       validHosts cat = some hosts → host ∈ hosts → seg ∈ doubanSegs →
       ds ≠ [] → (∀ c ∈ ds, isDigitChar c = true) → (tail = [] ∨ tail = ['/']) →
       ParseDoubanURL (str "https://" ++ (host ++ '/' :: (seg ++ '/' :: (ds ++ tail)))) cat =
         .ok ds) ∧
    (∀ url cat ds, ParseDoubanURL url cat = .ok ds →
       ∃ hosts host seg tail, validHosts cat = some hosts ∧ host ∈ hosts ∧
         seg ∈ doubanSegs ∧ ds ≠ [] ∧ (∀ c ∈ ds, isDigitChar c = true) ∧
         (tail = [] ∨ tail = ['/']) ∧
         url = str "https://" ++ (host ++ '/' :: (seg ++ '/' :: (ds ++ tail)))) ∧
    (∀ url cat host ds hosts, matchDoubanURL url = some (host, ds) →
       validHosts cat = some hosts → host ∉ hosts →
       ParseDoubanURL url cat = .error .invalidHost) ∧
    (∀ url cat host ds, matchDoubanURL url = some (host, ds) → validHosts cat = none →
       ParseDoubanURL url cat = .error .unknownSubjectType) := by
  refine ⟨?_, ?_, ?_, ?_⟩
  · intro cat hosts host seg ds tail hv hmem hseg hds hdig ht
    have hm := matchDoubanURL_complete host seg ds tail
      (validHosts_sub cat hosts hv host hmem) hseg hds hdig ht
    simp only [ParseDoubanURL, hm, hv]
    rw [if_pos hmem]
  · intro url cat ds h
    simp only [ParseDoubanURL] at h
    cases hm : matchDoubanURL url with
    | none => rw [hm] at h; simp at h
    | some pr =>
      obtain ⟨host, ds0⟩ := pr
      rw [hm] at h
      cases hv : validHosts cat with
      | none => rw [hv] at h; simp at h
      | some hosts =>
        rw [hv] at h
        dsimp only at h
        by_cases hmem : host ∈ hosts
        · rw [if_pos hmem] at h
          have hds0 : ds0 = ds := Except.ok.inj h
          subst hds0
          obtain ⟨seg, tail, hh, hs, hds, hdig, ht, hurl⟩ :=
            matchDoubanURL_sound url host ds0 hm
          exact ⟨hosts, host, seg, tail, rfl, hmem, hs, hds, hdig, ht, hurl⟩
        · rw [if_neg hmem] at h; simp at h
  · intro url cat host ds hosts hm hv hmem
    simp only [ParseDoubanURL, hm, hv]
    rw [if_neg hmem]
  · intro url cat host ds hm hv
    simp only [ParseDoubanURL, hm, hv]

/-- C1 witness: every conjunct of `parseDoubanURL_amended` at concrete
URLs — a movie URL resolving to its digit run (both directions of the
characterization), a book-host URL requested as movie failing with the
host-mismatch error, and an unknown category failing with the
unsupported-category error. -/
theorem parseDoubanURL_amended_witness :
    ParseDoubanURL (str "https://" ++ (str "movie.douban.com" ++ '/' ::
      (str "subject" ++ '/' :: (str "1292052" ++ [])))) (str "movie") =
      .ok (str "1292052") ∧
    (∃ hosts host seg tail, validHosts (str "movie") = some hosts ∧ host ∈ hosts ∧
       seg ∈ doubanSegs ∧ str "1292052" ≠ [] ∧
       (∀ c ∈ str "1292052", isDigitChar c = true) ∧ (tail = [] ∨ tail = ['/']) ∧
       str "https://movie.douban.com/subject/1292052/" =
         str "https://" ++ (host ++ '/' :: (seg ++ '/' :: (str "1292052" ++ tail)))) ∧
    ParseDoubanURL (str "https://book.douban.com/subject/1292052/") (str "movie") =
      .error .invalidHost ∧
    ParseDoubanURL (str "https://movie.douban.com/subject/1292052/") (str "music") =
      .error .unknownSubjectType := by
  refine ⟨?_, ?_, ?_, ?_⟩
  · exact parseDoubanURL_amended.1 (str "movie") [str "movie.douban.com"]
      (str "movie.douban.com") (str "subject") (str "1292052") [] rfl (by decide) (by decide)
      (by decide) (by decide) (Or.inl rfl)
  · exact parseDoubanURL_amended.2.1 (str "https://movie.douban.com/subject/1292052/")
      (str "movie") (str "1292052") rfl
  · exact parseDoubanURL_amended.2.2.1 (str "https://book.douban.com/subject/1292052/")
      (str "movie") (str "book.douban.com") (str "1292052") [str "movie.douban.com"] rfl rfl
      (by decide)
  · exact parseDoubanURL_amended.2.2.2 (str "https://movie.douban.com/subject/1292052/")
      (str "music") (str "movie.douban.com") (str "1292052") rfl rfl

end DoubanTimeline
